import Mathlib

/-!
# Verification of the Jimeng image-generation API client

Shallow embedding of `gen_pic_from_pic.py` (class `JimengApiClient`) and proofs
about its specified behaviour: the CRC-32 checksum used by the upload pipeline,
the SigV4-style request signer, and the `generate_image` control flow
(validation, credit check, submission, poll loop, URL extraction) over an
explicit transport oracle.

Machine integers are modelled as `Nat` with explicit masking; byte strings as
`List Nat` (each element `< 256`); Python dicts as association lists in
insertion order.
-/

set_option maxRecDepth 100000

namespace Jimeng

/-! ## Bytes, hex and UTF-8 helpers -/

/-- UTF-8 encoding of a single character, as a list of byte values. -/
def utf8Bytes (c : Char) : List Nat :=
  let n := c.toNat
  if n < 0x80 then [n]
  else if n < 0x800 then [0xC0 ||| (n >>> 6), 0x80 ||| (n &&& 0x3F)]
  else if n < 0x10000 then
    [0xE0 ||| (n >>> 12), 0x80 ||| ((n >>> 6) &&& 0x3F), 0x80 ||| (n &&& 0x3F)]
  else
    [0xF0 ||| (n >>> 18), 0x80 ||| ((n >>> 12) &&& 0x3F),
     0x80 ||| ((n >>> 6) &&& 0x3F), 0x80 ||| (n &&& 0x3F)]

/-- UTF-8 bytes of a string (Python's `str.encode` with the default encoding). -/
def strBytes (s : String) : List Nat :=
  s.data.foldr (fun c acc => utf8Bytes c ++ acc) []

/-- Lower-case hex digit for a value `< 16`. -/
def hexDigitLower (n : Nat) : Char :=
  if n < 10 then Char.ofNat (48 + n) else Char.ofNat (87 + n)

/-- Upper-case hex digit for a value `< 16`. -/
def hexDigitUpper (n : Nat) : Char :=
  if n < 10 then Char.ofNat (48 + n) else Char.ofNat (55 + n)

/-- Two lower-case hex digits of a byte. -/
def byteHexLower (b : Nat) : String :=
  String.mk [hexDigitLower (b / 16 % 16), hexDigitLower (b % 16)]

/-- Two upper-case hex digits of a byte. -/
def byteHexUpper (b : Nat) : String :=
  String.mk [hexDigitUpper (b / 16 % 16), hexDigitUpper (b % 16)]

/-- Lower-case hex rendering of a byte list (Python's `.hexdigest()`). -/
def bytesHex (l : List Nat) : String :=
  String.join (l.map byteHexLower)

/-! ## SHA-256 (FIPS 180-4), over byte lists

The source calls `hashlib.sha256`; this is a direct executable embedding of
the standard, with 32-bit words as `Nat` reduced mod `2^32`. -/

/-- Truncate to a 32-bit word. -/
def w32 (x : Nat) : Nat := x % 4294967296

/-- Rotate a 32-bit word right by `n` bits. -/
def rotr32 (n x : Nat) : Nat := w32 ((x >>> n) ||| (x <<< (32 - n)))

def sha256BigSigma0 (x : Nat) : Nat := rotr32 2 x ^^^ rotr32 13 x ^^^ rotr32 22 x
def sha256BigSigma1 (x : Nat) : Nat := rotr32 6 x ^^^ rotr32 11 x ^^^ rotr32 25 x
def sha256SmallSigma0 (x : Nat) : Nat := rotr32 7 x ^^^ rotr32 18 x ^^^ (x >>> 3)
def sha256SmallSigma1 (x : Nat) : Nat := rotr32 17 x ^^^ rotr32 19 x ^^^ (x >>> 10)
def sha256Ch (x y z : Nat) : Nat := (x &&& y) ^^^ ((x ^^^ 0xFFFFFFFF) &&& z)
def sha256Maj (x y z : Nat) : Nat := (x &&& y) ^^^ (x &&& z) ^^^ (y &&& z)

/-- The 64 SHA-256 round constants. -/
def sha256K : List Nat :=
  [1116352408, 1899447441, 3049323471, 3921009573, 961987163,
   1508970993, 2453635748, 2870763221, 3624381080, 310598401,
   607225278, 1426881987, 1925078388, 2162078206, 2614888103,
   3248222580, 3835390401, 4022224774, 264347078, 604807628,
   770255983, 1249150122, 1555081692, 1996064986, 2554220882,
   2821834349, 2952996808, 3210313671, 3336571891, 3584528711,
   113926993, 338241895, 666307205, 773529912, 1294757372,
   1396182291, 1695183700, 1986661051, 2177026350, 2456956037,
   2730485921, 2820302411, 3259730800, 3345764771, 3516065817,
   3600352804, 4094571909, 275423344, 430227734, 506948616,
   659060556, 883997877, 958139571, 1322822218, 1537002063,
   1747873779, 1955562222, 2024104815, 2227730452, 2361852424,
   2428436474, 2756734187, 3204031479, 3329325298]

/-- The SHA-256 initial hash value. -/
def sha256H0 : List Nat :=
  [1779033703, 3144134277, 1013904242, 2773480762,
   1359893119, 2600822924, 528734635, 1541459225]

/-- Big-endian bytes of a value, `n` bytes wide. -/
def beBytes (n v : Nat) : List Nat :=
  (List.range n).map (fun i => (v >>> (8 * (n - 1 - i))) &&& 0xFF)

/-- Big-endian 32-bit word from a list of bytes. -/
def be32 (l : List Nat) : Nat := l.foldl (fun acc b => acc * 256 + b) 0

/-- SHA-256 padding: append `0x80`, zero bytes to 56 mod 64, then the
    64-bit big-endian bit length. -/
def sha256Pad (msg : List Nat) : List Nat :=
  let L := msg.length
  let r := (L + 1) % 64
  let zeros := (56 + 64 - r) % 64
  msg ++ [0x80] ++ List.replicate zeros 0 ++ beBytes 8 (8 * L)

/-- Split a byte list into blocks of (at most) 64, with explicit fuel so the
    definition is plain structural recursion. -/
def toBlocksFuel : Nat → List Nat → List (List Nat)
  | 0, _ => []
  | _ + 1, [] => []
  | fuel + 1, l => l.take 64 :: toBlocksFuel fuel (l.drop 64)

def toBlocks (l : List Nat) : List (List Nat) := toBlocksFuel l.length l

/-- Next word of the SHA-256 message schedule, from the words so far. -/
def sha256NextW (ws : List Nat) : Nat :=
  let n := ws.length
  w32 (sha256SmallSigma1 (ws.getD (n - 2) 0) + ws.getD (n - 7) 0 +
       sha256SmallSigma0 (ws.getD (n - 15) 0) + ws.getD (n - 16) 0)

/-- Extend the message schedule by `k` further words. -/
def sha256Extend (ws : List Nat) : Nat → List Nat
  | 0 => ws
  | k + 1 => sha256Extend (ws ++ [sha256NextW ws]) k

/-- One SHA-256 round on the 8-word state, given `K[i] + W[i]`. -/
def sha256Round (st : List Nat) (kw : Nat) : List Nat :=
  match st with
  | [a, b, c, d, e, f, g, h] =>
    let t1 := w32 (h + sha256BigSigma1 e + sha256Ch e f g + kw)
    let t2 := w32 (sha256BigSigma0 a + sha256Maj a b c)
    [w32 (t1 + t2), a, b, c, w32 (d + t1), e, f, g]
  | _ => st

/-- Compress one 64-byte block into the running hash state. -/
def sha256Compress (H : List Nat) (block : List Nat) : List Nat :=
  let ws0 := (List.range 16).map (fun i => be32 ((block.drop (4 * i)).take 4))
  let ws := sha256Extend ws0 48
  let kws := (sha256K.zip ws).map (fun p => w32 (p.1 + p.2))
  let st := kws.foldl sha256Round H
  (H.zip st).map (fun p => w32 (p.1 + p.2))

/-- SHA-256 digest of a byte list, as 32 bytes. -/
def sha256 (msg : List Nat) : List Nat :=
  let H := (toBlocks (sha256Pad msg)).foldl sha256Compress sha256H0
  (H.map (beBytes 4)).flatten

/-- Hex digest of SHA-256, as produced by `hashlib.sha256(...).hexdigest()`. -/
def sha256Hex (msg : List Nat) : String := bytesHex (sha256 msg)

/-- HMAC-SHA256 (RFC 2104), used by the signer via `hmac.new(..., hashlib.sha256)`. -/
def hmacSha256 (key msg : List Nat) : List Nat :=
  let k := if 64 < key.length then sha256 key else key
  let k0 := k ++ List.replicate (64 - k.length) 0
  sha256 ((k0.map (· ^^^ 0x5c)) ++ sha256 ((k0.map (· ^^^ 0x36)) ++ msg))

/-! ## CRC-32 as computed by the upload pipeline

`_upload_cover_file` (src line 343) calls
`crcmod.mkCrcFun(0x104c11db7, initCrc=0, xorOut=0xFFFFFFFF)`.
This section is a direct embedding of `crcmod`'s reflected (rev=True, the
default) table algorithm: `_bitrev`, `_bytecrc_r`, `_crc32r`, and the
`xorOut`-conjugation `mkCrcFun` applies around the raw table loop. -/

/-- crcmod's `_bitrev`: reverse the low `n` bits of `x`. -/
def bitrevAux (x y : Nat) : Nat → Nat
  | 0 => y
  | n + 1 => bitrevAux (x >>> 1) ((y <<< 1) ||| (x &&& 1)) n

def bitrev (x n : Nat) : Nat := bitrevAux x 0 n

/-- One shift-and-conditionally-xor step of the reflected CRC. -/
def crcShiftStep (poly c : Nat) : Nat :=
  if c &&& 1 = 1 then (c >>> 1) ^^^ poly else c >>> 1

/-- crcmod's `_bytecrc_r`: eight reflected CRC steps on a table index. -/
def bytecrc_r (crc poly : Nat) : Nat :=
  (crcShiftStep poly)^[8] crc

/-- crcmod's `_crc32r` per-byte update: `crc = table[byte ^ (crc & 0xFF)] ^ (crc >> 8)`. -/
def crc32rStep (rpoly crc b : Nat) : Nat :=
  bytecrc_r ((b ^^^ (crc &&& 0xFF)) &&& 0xFF) rpoly ^^^ (crc >>> 8)

/-- crcmod's `mkCrcFun` specialised to a 33-bit polynomial with the default
    `rev=True`: the register starts at `xorOut ^ initCrc` and the result is
    xored with `xorOut` (no conjugation when `xorOut = 0`). -/
def mkCrcFun32r (poly initCrc xorOut : Nat) (data : List Nat) : Nat :=
  let mask := 0xFFFFFFFF
  let rpoly := bitrev (poly &&& mask) 32
  if xorOut &&& mask = 0 then
    data.foldl (crc32rStep rpoly) (initCrc &&& mask)
  else
    (data.foldl (crc32rStep rpoly) ((xorOut &&& mask) ^^^ (initCrc &&& mask)))
      ^^^ (xorOut &&& mask)

/-- The checksum the upload pipeline computes over the image bytes
    (src lines 343-344, before hex rendering). -/
def image_crc32 (data : List Nat) : Nat :=
  mkCrcFun32r 0x104c11db7 0 0xFFFFFFFF data

/-- The CRC-32 variant as the specification claims it: polynomial
    `0x104C11D97`, reflected, initial register value 0, final XOR
    `0xFFFFFFFF`. Written from the spec's words, for comparison with
    `image_crc32`. -/
def crc32SpecClaimed (data : List Nat) : Nat :=
  let rpoly := bitrev (0x104C11D97 &&& 0xFFFFFFFF) 32
  (data.foldl (crc32rStep rpoly) 0) ^^^ 0xFFFFFFFF

/-- Standard CRC-32 (ISO 3309 / zlib): reflected polynomial `0xEDB88320`
    (the bit-reversal of `0x04C11DB7`), initial register `0xFFFFFFFF`,
    final XOR `0xFFFFFFFF`. -/
def crc32Standard (data : List Nat) : Nat :=
  (data.foldl (crc32rStep 0xEDB88320) 0xFFFFFFFF) ^^^ 0xFFFFFFFF

/-! ## Python string-level helpers: join, sort, lookup, url-encoding -/

/-- Python's `sep.join(list)`. -/
def pyJoin (sep : String) : List String → String
  | [] => ""
  | [x] => x
  | x :: y :: ys => x ++ sep ++ pyJoin sep (y :: ys)

/-- Lexicographic comparison of character lists by code point, as Python
    compares strings. -/
def charListLe : List Char → List Char → Bool
  | [], _ => true
  | _ :: _, [] => false
  | a :: as, b :: bs =>
    if a.toNat < b.toNat then true
    else if b.toNat < a.toNat then false
    else charListLe as bs

/-- Python string `<=` (code-point lexicographic). -/
def strLe (a b : String) : Bool := charListLe a.data b.data

/-- Python `str.upper()` (ASCII case mapping, all the source needs). -/
def strUpper (s : String) : String := String.mk (s.data.map Char.toUpper)

/-- Python `str.lower()` (ASCII case mapping, all the source needs). -/
def strLower (s : String) : String := String.mk (s.data.map Char.toLower)

/-- Python slicing `s[:n]` (first `n` characters). -/
def strTake (s : String) (n : Nat) : String := String.mk (s.data.take n)

def insertSortedStr (x : String) : List String → List String
  | [] => [x]
  | y :: ys => if strLe x y then x :: y :: ys else y :: insertSortedStr x ys

/-- Python's `sorted` on a list of strings (stable insertion sort). -/
def sortStrings (l : List String) : List String := l.foldr insertSortedStr []

def insertSortedPair (x : String × String) :
    List (String × String) → List (String × String)
  | [] => [x]
  | y :: ys => if strLe x.1 y.1 then x :: y :: ys else y :: insertSortedPair x ys

/-- Sort an association list by key (stable), as `sorted(d.items())` would. -/
def sortPairsByKey (l : List (String × String)) : List (String × String) :=
  l.foldr insertSortedPair []

/-- Dict lookup `d[key]` on an association list (first match; `""` if absent,
    which never happens for keys taken from the list itself). -/
def lookupD (l : List (String × String)) (k : String) : String :=
  match l.find? (fun p => p.1 == k) with
  | some p => p.2
  | none => ""

/-- The characters `urllib.parse.quote` never encodes: ASCII letters, digits,
    `_`, `.`, `-`, `~`. -/
def isUrlAlwaysSafe (b : Nat) : Bool :=
  (0x41 ≤ b && b ≤ 0x5A) || (0x61 ≤ b && b ≤ 0x7A) || (0x30 ≤ b && b ≤ 0x39) ||
  b == 0x5F || b == 0x2E || b == 0x2D || b == 0x7E

/-- Python `urllib.parse.quote_plus` with `safe=''`: spaces become `+`,
    unsafe bytes become `%XX` with upper-case hex. -/
def quote_plus (s : String) : String :=
  String.join ((strBytes s).map (fun b =>
    if b == 0x20 then "+"
    else if isUrlAlwaysSafe b then String.singleton (Char.ofNat b)
    else "%" ++ byteHexUpper b))

/-- Python `urllib.parse.urlencode` over an association list; pairs are
    rendered in the order given (Python dicts iterate in insertion order;
    `urlencode` does not sort). -/
def urlencode (params : List (String × String)) : String :=
  pyJoin "&" (params.map (fun p => quote_plus p.1 ++ "=" ++ quote_plus p.2))

/-! ## JSON values and Python `json.dumps` -/

/-- JSON values; objects keep fields in insertion order like Python dicts. -/
inductive Jval where
  | str (s : String)
  | num (n : Int)
  | bool (b : Bool)
  | null
  | arr (elems : List Jval)
  | obj (fields : List (String × Jval))

/-- Four lower-case hex digits. -/
def hex4 (n : Nat) : String :=
  String.mk [hexDigitLower (n / 4096 % 16), hexDigitLower (n / 256 % 16),
             hexDigitLower (n / 16 % 16), hexDigitLower (n % 16)]

/-- `json.dumps` escaping of one character (default `ensure_ascii=True`):
    backslash, quote and everything outside `0x20..0x7E` is escaped. -/
def jsonEscapeChar (c : Char) : String :=
  if c = '"' then "\\\""
  else if c = '\\' then "\\\\"
  else if c = '\n' then "\\n"
  else if c = '\r' then "\\r"
  else if c = '\t' then "\\t"
  else if c.toNat = 8 then "\\b"
  else if c.toNat = 12 then "\\f"
  else if c.toNat < 0x20 || 0x7E < c.toNat then
    let n := c.toNat
    if n < 0x10000 then "\\u" ++ hex4 n
    else
      let m := n - 0x10000
      "\\u" ++ hex4 (0xD800 + m / 0x400) ++ "\\u" ++ hex4 (0xDC00 + m % 0x400)
  else String.singleton c

def jsonEscape (s : String) : String := String.join (s.data.map jsonEscapeChar)

mutual

/-- Python `json.dumps` with default separators `", "` and `": "`. -/
def Jval.dumps : Jval → String
  | .str s => "\"" ++ jsonEscape s ++ "\""
  | .num n => toString n
  | .bool b => if b then "true" else "false"
  | .null => "null"
  | .arr l => "[" ++ pyJoin ", " (Jval.dumpsList l) ++ "]"
  | .obj l => "\x7b" ++ pyJoin ", " (Jval.dumpsFields l) ++ "\x7d"

def Jval.dumpsList : List Jval → List String
  | [] => []
  | v :: vs => v.dumps :: Jval.dumpsList vs

def Jval.dumpsFields : List (String × Jval) → List String
  | [] => []
  | f :: fs => ("\"" ++ jsonEscape f.1 ++ "\": " ++ f.2.dumps) :: Jval.dumpsFields fs

end

/-! ## The request signer

Embedding of `_add_headers` (src 224-236), `_credential_string` (238-246),
`_signed_headers` (248-251), `_canonical_string` (253-274), `_signature`
(276-303) and `_generate_authorization_and_header` (305-331). The only
implicit input of the Python code is the wall clock (`time.gmtime()`); it is
modelled as the explicit `amz_date` parameter, so "frozen time" is an input. -/

/-- `_add_headers`: base headers, plus `X-Amz-Content-Sha256` iff the body is
    a non-empty dict. -/
def add_headers (amz_date session_token : String)
    (request_body : List (String × Jval)) : List (String × String) :=
  let headers := [("X-Amz-Date", amz_date), ("X-Amz-Security-Token", session_token)]
  if request_body.isEmpty then headers
  else headers ++
    [("X-Amz-Content-Sha256", sha256Hex (strBytes (Jval.dumps (.obj request_body))))]

/-- `_credential_string`: `date/region/service/aws4_request`. -/
def credential_string (amz_date region service : String) : String :=
  pyJoin "/" [strTake amz_date 8, region, service, "aws4_request"]

/-- `_signed_headers`: semicolon-joined sorted lower-cased header names. -/
def signed_headers (request_headers : List (String × String)) : String :=
  pyJoin ";" (sortStrings (request_headers.map (fun p => strLower p.1)))

/-- `_canonical_string`: the canonical request exactly as the source builds
    it. Note `urlencode(request_params)` keeps the dict's insertion order. -/
def canonical_string (request_method : String)
    (request_params : List (String × String))
    (request_headers : List (String × String))
    (request_body : List (String × Jval)) : String :=
  let canonical_headers := (sortStrings (request_headers.map (fun p => p.1))).map
    (fun key => strLower key ++ ":" ++ lookupD request_headers key)
  let canonical_headers_str := pyJoin "\n" canonical_headers ++ "\n"
  let body := if request_body.isEmpty then "" else Jval.dumps (.obj request_body)
  pyJoin "\n" [strUpper request_method, "/", urlencode request_params,
    canonical_headers_str, signed_headers request_headers,
    sha256Hex (strBytes body)]

/-- `_signature`: derived signing key, string-to-sign, final HMAC hex. -/
def signature (secret_access_key amz_date region service : String)
    (request_method : String) (request_params : List (String × String))
    (request_headers : List (String × String))
    (request_body : List (String × Jval)) : String :=
  let k_date := hmacSha256 (strBytes ("AWS4" ++ secret_access_key))
    (strBytes (strTake amz_date 8))
  let k_region := hmacSha256 k_date (strBytes region)
  let k_service := hmacSha256 k_region (strBytes service)
  let signing_key := hmacSha256 k_service (strBytes "aws4_request")
  let string_to_sign := pyJoin "\n" ["AWS4-HMAC-SHA256", amz_date,
    credential_string amz_date region service,
    sha256Hex (strBytes
      (canonical_string request_method request_params request_headers request_body))]
  bytesHex (hmacSha256 signing_key (strBytes string_to_sign))

/-- `_generate_authorization_and_header`, with the clock made explicit. -/
def generate_authorization_and_header (access_key_id secret_access_key
    session_token region service request_method : String)
    (request_params : List (String × String))
    (request_body : List (String × Jval)) (amz_date : String) :
    List (String × String) :=
  let request_headers := add_headers amz_date session_token request_body
  let authorization := pyJoin ", "
    ["AWS4-HMAC-SHA256 Credential=" ++ access_key_id ++ "/" ++
       credential_string amz_date region service,
     "SignedHeaders=" ++ signed_headers request_headers,
     "Signature=" ++ signature secret_access_key amz_date region service
       request_method request_params request_headers request_body]
  request_headers ++ [("Authorization", authorization)]

/-! ## The canonical request as the specification words it -/

/-- The canonical request following the spec sentence verbatim: `METHOD\n/\n`
    + URL-encoded **key-sorted** query string + `\n` + (per header,
    lower-cased, sorted by key: `key:value\n`) + `\n` + semicolon-joined
    sorted lower-cased header names + `\n` + hex SHA-256 of the
    JSON-serialized body (empty string hashed if the body is empty). -/
def canonical_string_spec_claimed (request_method : String)
    (request_params : List (String × String))
    (request_headers : List (String × String))
    (request_body : List (String × Jval)) : String :=
  strUpper request_method ++ "\n" ++ "/" ++ "\n" ++
  urlencode (sortPairsByKey request_params) ++ "\n" ++
  String.join ((sortStrings (request_headers.map (fun p => p.1))).map
    (fun key => strLower key ++ ":" ++ lookupD request_headers key ++ "\n")) ++
  "\n" ++
  signed_headers request_headers ++ "\n" ++
  sha256Hex (strBytes
    (if request_body.isEmpty then "" else Jval.dumps (.obj request_body)))

/-- Like `canonical_string_spec_claimed`, but with the query string
    URL-encoded in the parameter map's insertion order — the amendment the
    code forces. -/
def canonical_string_spec_insertion (request_method : String)
    (request_params : List (String × String))
    (request_headers : List (String × String))
    (request_body : List (String × Jval)) : String :=
  strUpper request_method ++ "\n" ++ "/" ++ "\n" ++
  urlencode request_params ++ "\n" ++
  String.join ((sortStrings (request_headers.map (fun p => p.1))).map
    (fun key => strLower key ++ ":" ++ lookupD request_headers key ++ "\n")) ++
  "\n" ++
  signed_headers request_headers ++ "\n" ++
  sha256Hex (strBytes
    (if request_body.isEmpty then "" else Jval.dumps (.obj request_body)))

/-! ## The `generate_image` control flow

Embedding of `generate_image` (src 438-699) over an explicit transport
oracle. Each remote call the method makes is one field of `Transport`; the
returned trace lists the network calls actually issued, in order. `Except`'s
error carries the message of the Python exception raised at that call. -/

/-- The credit payload `get_credit` (src 154-179) extracts. -/
structure Credit where
  gift_credit : Int
  purchase_credit : Int
  vip_credit : Int
  deriving DecidableEq

/-- `total_credit` as `get_credit` computes it. -/
def Credit.total (c : Credit) : Int :=
  c.gift_credit + c.purchase_credit + c.vip_credit

/-- One entry of an item's `large_images` list; `image_url` may be absent. -/
structure LargeImage where
  image_url : Option String
  deriving DecidableEq

/-- One entry of a history record's `item_list`. `large_images` is absent or
    a list (`item.get('image', {}).get('large_images')`); `cover_url` is
    absent or a string (`item.get('common_attr', {}).get('cover_url')`). -/
structure Item where
  large_images : Option (List LargeImage)
  cover_url : Option String
  deriving DecidableEq

/-- The history record polled by `generate_image` (src 674-680). -/
structure Record where
  status : Option Int
  fail_code : Option String
  item_list : List Item
  deriving DecidableEq

/-- The submission response payload (src 635-638): the optional
    `history_record_id` and the optional `errmsg` used in the error path. -/
structure SubmitResp where
  history_record_id : Option String
  errmsg : Option String
  deriving DecidableEq

/-- The response of `/commerce/v1/benefits/credit_receive`; `receive_credit`
    (src 181-189) discards it entirely. -/
structure CreditReceiveResp where
  errmsg : Option String
  deriving DecidableEq

/-- The exceptions `generate_image` can raise, by source site. -/
inductive GenError where
  | validation
  | uploadFailed (msg : String)
  | transport (msg : String)
  | noHistoryId (msg : String)
  | recordMissing
  | contentFiltered
  | generationFailed
  deriving DecidableEq

/-- The network calls `generate_image` issues, for the call trace. -/
inductive NetCall where
  | upload
  | getCredit
  | receiveCredit
  | submit
  | poll
  deriving DecidableEq

/-- The transport oracle: the outcome of each remote call `generate_image`
    may perform, with one entry of `pollResults` per poll iteration
    (`.ok none` = response lacks a record for the history id). -/
structure Transport where
  uploadResult : Except String String
  creditResult : Except String Credit
  receiveResult : Except String CreditReceiveResp
  submitResult : Except String SubmitResp
  pollResults : List (Except String (Option Record))

/-- Python truthiness of an optional string. -/
def truthyStr : Option String → Bool
  | some s => s ≠ ""
  | none => false

/-- URL extraction for one item (src 690-694): the first `large_images`
    entry's `image_url` when the `large_images` list is truthy (present and
    non-empty), otherwise the truthy `cover_url`, otherwise nothing; a falsy
    result is discarded (src 696). -/
def extract_image_url (item : Item) : Option String :=
  let image_url : Option String :=
    match item.large_images with
    | some (li :: _) => li.image_url
    | _ => if truthyStr item.cover_url then item.cover_url else none
  if truthyStr image_url then image_url else none

/-- The `image_urls` accumulation loop (src 688-697). -/
def extract_image_urls (item_list : List Item) : List String :=
  item_list.foldl
    (fun acc item =>
      match extract_image_url item with
      | some u => acc ++ [u]
      | none => acc) []

/-- Result of the poll loop (src 641-685). -/
inductive PollOutcome where
  | finished (item_list : List Item)
  | failed (e : GenError)
  | exhausted
  deriving DecidableEq

/-- The poll loop: one response per iteration, returning the outcome and the
    number of poll requests issued. `status` starts at 20; an iteration
    raises on a transport failure or a missing record, raises
    `contentFiltered`/`generationFailed` on status 30 (by `fail_code`),
    continues on status 20, and otherwise leaves the loop with the last
    record's `item_list`. `.exhausted` marks runs the supplied oracle cannot
    settle (the real loop would keep polling). -/
def pollLoop : List (Except String (Option Record)) → PollOutcome × Nat
  | [] => (.exhausted, 0)
  | r :: rest =>
    match r with
    | .error m => (.failed (.transport m), 1)
    | .ok none => (.failed .recordMissing, 1)
    | .ok (some record) =>
      if record.status = some 30 then
        if record.fail_code = some "2038" then (.failed .contentFiltered, 1)
        else (.failed .generationFailed, 1)
      else if record.status = some 20 then
        let r := pollLoop rest
        (r.1, r.2 + 1)
      else (.finished record.item_list, 1)

/-- Steps of `generate_image` from the submission call on (src 632-699). -/
def generate_image_submit (t : Transport) (tr : List NetCall) :
    (Option (Except GenError (List String))) × List NetCall :=
  match t.submitResult with
  | .error m => (some (.error (.transport m)), tr ++ [.submit])
  | .ok resp =>
    if truthyStr resp.history_record_id then
      let pr := pollLoop t.pollResults
      let tr2 := tr ++ [.submit] ++ List.replicate pr.2 .poll
      match pr.1 with
      | .finished item_list => (some (.ok (extract_image_urls item_list)), tr2)
      | .failed e => (some (.error e), tr2)
      | .exhausted => (none, tr2)
    else
      (some (.error (.noHistoryId (resp.errmsg.getD "记录ID不存在"))), tr ++ [.submit])

/-- Steps of `generate_image` from the credit check on (src 469-472): a
    failing `get_credit` or `receive_credit` raises; the payload of a
    succeeding `receive_credit` is discarded. -/
def generate_image_credit (t : Transport) (tr : List NetCall) :
    (Option (Except GenError (List String))) × List NetCall :=
  match t.creditResult with
  | .error m => (some (.error (.transport m)), tr ++ [.getCredit])
  | .ok credit =>
    if credit.total ≤ 0 then
      match t.receiveResult with
      | .error m => (some (.error (.transport m)), tr ++ [.getCredit, .receiveCredit])
      | .ok _ => generate_image_submit t (tr ++ [.getCredit, .receiveCredit])
    else
      generate_image_submit t (tr ++ [.getCredit])

/-- `generate_image` (src 438-699): validation, optional upload, credit
    check, submission, poll loop, extraction. The first component is the
    outcome (`none` when the supplied poll responses never leave status 20 —
    the real loop would still be running); the second is the trace of network
    calls issued. -/
def generate_image (prompt : String) (has_file_path : Bool) (t : Transport) :
    (Option (Except GenError (List String))) × List NetCall :=
  if prompt = "" then (some (.error .validation), [])
  else if has_file_path then
    match t.uploadResult with
    | .error m => (some (.error (.uploadFailed m)), [.upload])
    | .ok _ => generate_image_credit t [.upload]
  else
    generate_image_credit t []

/-! ## The draft document and its generated identifiers

Embedding of the draft build inside `generate_image` (src 474-618).
`_generate_uuid` (src 106-108) draws from the process-wide `uuid.uuid4()`
stream; it is modelled as an oracle `gen : Nat → α` consumed at successive
indices, one per call site, threaded through the build in the source's
evaluation order. `component_id` is drawn once (src 475) and referenced both
as the component's `id` and as `main_component_id` (src 596, 599). -/

structure LargeImageInfoNode (α : Type) where
  id : α
  height : Nat
  width : Nat

structure HistoryOptionNode (α : Type) where
  id : α

structure MetadataNode (α : Type) where
  id : α

/-- Core parameters of the `generate` ability (src 559-575). -/
structure GenerateCoreParam (α : Type) where
  id : α
  model : String
  prompt : String
  negative_prompt : String
  large_image_info : LargeImageInfoNode α

/-- The `generate` ability (src 555-581). -/
structure GenerateAbility (α : Type) where
  id : α
  core_param : GenerateCoreParam α
  history_option : HistoryOptionNode α

/-- One `image_list` entry of the `byte_edit` ability (src 520-531). -/
structure BlendImageRef (α : Type) where
  id : α
  image_uri : String

/-- The `byte_edit` entry of `ability_list` (src 514-534). -/
structure ByteEditAbility (α : Type) where
  id : α
  image_uri_list : List String
  image_list : List (BlendImageRef α)

structure PromptPlaceholderNode (α : Type) where
  id : α
  ability_index : Nat

structure PostEditParamNode (α : Type) where
  id : α
  generate_type : Nat

/-- Core parameters of the `blend` ability (src 498-512): prompt carries the
    `##` sentinel suffix, canvas fixed at 1360x1360. -/
structure BlendCoreParam (α : Type) where
  id : α
  model : String
  prompt : String
  large_image_info : LargeImageInfoNode α

/-- The `blend` ability (src 493-553). -/
structure BlendAbility (α : Type) where
  id : α
  core_param : BlendCoreParam α
  ability_list : List (ByteEditAbility α)
  history_option : HistoryOptionNode α
  prompt_placeholder_info_list : List (PromptPlaceholderNode α)
  postedit_param : PostEditParamNode α

/-- Exactly one of the two abilities is present (src 492-581). -/
inductive AbilityKind (α : Type) where
  | generate (g : GenerateAbility α)
  | blend (b : BlendAbility α)

/-- The `abilities` wrapper node (src 611-615). -/
structure AbilitiesNode (α : Type) where
  id : α
  ability : AbilityKind α

/-- The `image_base_component` (src 597-616). -/
structure ComponentNode (α : Type) where
  id : α
  metadata : MetadataNode α
  abilities : AbilitiesNode α

/-- The draft document (src 590-617). -/
structure DraftDocument (α : Type) where
  id : α
  main_component_id : α
  component_list : List (ComponentNode α)

/-- The full request data `rq_data` (src 584-618). -/
structure RqData (α : Type) where
  submit_id : α
  draft : DraftDocument α

/-- Build `rq_data` for one `generate_image` call, drawing identifiers from
    `gen` starting at index `k`, in the source's evaluation order:
    `component_id` first (src 475), then the ability subtree (src 492-581),
    then `submit_id`, the draft id, the metadata id and the abilities-wrapper
    id (src 584-617). Returns the built data and the next unused index. -/
def build_rq_data {α : Type} (gen : Nat → α) (k : Nat) (has_file_path : Bool)
    (actual_model prompt negative_prompt upload_id : String)
    (width height : Nat) : RqData α × Nat :=
  let component_id := gen k
  if has_file_path then
    let blend : BlendAbility α :=
      { id := gen (k + 1)
        core_param :=
          { id := gen (k + 2)
            model := actual_model
            prompt := prompt ++ "##"
            large_image_info := { id := gen (k + 3), height := 1360, width := 1360 } }
        ability_list :=
          [{ id := gen (k + 4)
             image_uri_list := [upload_id]
             image_list := [{ id := gen (k + 5), image_uri := upload_id }] }]
        history_option := { id := gen (k + 6) }
        prompt_placeholder_info_list := [{ id := gen (k + 7), ability_index := 0 }]
        postedit_param := { id := gen (k + 8), generate_type := 0 } }
    ({ submit_id := gen (k + 9)
       draft :=
         { id := gen (k + 10)
           main_component_id := component_id
           component_list :=
             [{ id := component_id
                metadata := { id := gen (k + 11) }
                abilities := { id := gen (k + 12), ability := .blend blend } }] } },
     k + 13)
  else
    let g : GenerateAbility α :=
      { id := gen (k + 1)
        core_param :=
          { id := gen (k + 2)
            model := actual_model
            prompt := prompt
            negative_prompt := negative_prompt
            large_image_info := { id := gen (k + 3), height := height, width := width } }
        history_option := { id := gen (k + 4) } }
    ({ submit_id := gen (k + 5)
       draft :=
         { id := gen (k + 6)
           main_component_id := component_id
           component_list :=
             [{ id := component_id
                metadata := { id := gen (k + 7) }
                abilities := { id := gen (k + 8), ability := .generate g } }] } },
     k + 9)

/-- All generated identifiers below one `byte_edit` entry. -/
def ByteEditAbility.ids {α : Type} (a : ByteEditAbility α) : List α :=
  a.id :: a.image_list.map (fun r => r.id)

/-- All generated identifiers below an ability. -/
def AbilityKind.ids {α : Type} : AbilityKind α → List α
  | .generate g => [g.id, g.core_param.id, g.core_param.large_image_info.id,
                    g.history_option.id]
  | .blend b =>
    [b.id, b.core_param.id, b.core_param.large_image_info.id] ++
    (b.ability_list.map ByteEditAbility.ids).flatten ++
    [b.history_option.id] ++
    b.prompt_placeholder_info_list.map (fun p => p.id) ++
    [b.postedit_param.id]

/-- All generated identifiers below a component. -/
def ComponentNode.ids {α : Type} (c : ComponentNode α) : List α :=
  c.id :: c.metadata.id :: c.abilities.id :: c.abilities.ability.ids

/-- Every identifier `_generate_uuid` produced for a built `rq_data`
    (`main_component_id` is a reference to the component's id, not a separate
    draw, so it is not listed twice). -/
def RqData.allIds {α : Type} (r : RqData α) : List α :=
  r.submit_id :: r.draft.id :: (r.draft.component_list.map ComponentNode.ids).flatten

/-! ## Concrete transport fixtures for the scenario-based claims -/

/-- A credit response with positive total, so no grant claim is attempted. -/
def okCredit : Credit := { gift_credit := 1, purchase_credit := 0, vip_credit := 0 }

/-- A credit response with zero total, triggering the grant claim. -/
def zeroCredit : Credit := { gift_credit := 0, purchase_credit := 0, vip_credit := 0 }

/-- A successful submission response. -/
def okSubmit : SubmitResp := { history_record_id := some "h1", errmsg := none }

/-- A pending (status 20) history record. -/
def pendingRecord : Record := { status := some 20, fail_code := none, item_list := [] }

/-- A done (status 50) history record carrying `item_list`. -/
def doneRecord (item_list : List Item) : Record :=
  { status := some 50, fail_code := none, item_list := item_list }

/-- Transport for the poll-to-done scenario: pending twice, then done with
    the given items. -/
def transportDone (item_list : List Item) : Transport :=
  { uploadResult := .ok "uri"
    creditResult := .ok okCredit
    receiveResult := .ok { errmsg := none }
    submitResult := .ok okSubmit
    pollResults := [.ok (some pendingRecord), .ok (some pendingRecord),
                    .ok (some (doneRecord item_list))] }

/-- Transport whose single poll response has status 30 and the given
    `fail_code`. -/
def transportFailed (fc : Option String) : Transport :=
  { uploadResult := .ok "uri"
    creditResult := .ok okCredit
    receiveResult := .ok { errmsg := none }
    submitResult := .ok okSubmit
    pollResults := [.ok (some { status := some 30, fail_code := fc, item_list := [] })] }

/-- Transport whose single poll response has an arbitrary status. -/
def transportStatus (s : Option Int) (fc : Option String) (item_list : List Item) :
    Transport :=
  { uploadResult := .ok "uri"
    creditResult := .ok okCredit
    receiveResult := .ok { errmsg := none }
    submitResult := .ok okSubmit
    pollResults := [.ok (some { status := s, fail_code := fc, item_list := item_list })] }

/-- Transport with zero credit whose grant-claim call raises. -/
def transportReceiveFails : Transport :=
  { uploadResult := .ok "uri"
    creditResult := .ok zeroCredit
    receiveResult := .error "网络错误"
    submitResult := .ok okSubmit
    pollResults := [.ok (some (doneRecord []))] }

/-- Transport with zero credit, parametrised by the grant-claim outcome. -/
def transportZeroCredit (rcv : Except String CreditReceiveResp)
    (sub : Except String SubmitResp)
    (polls : List (Except String (Option Record))) : Transport :=
  { uploadResult := .ok "uri"
    creditResult := .ok zeroCredit
    receiveResult := rcv
    submitResult := sub
    pollResults := polls }

/-- An item whose non-empty `large_images` list starts with an entry lacking
    `image_url`, while a cover URL is present. -/
def itemNoUrl (cover : Option String) : Item :=
  { large_images := some [{ image_url := none }], cover_url := cover }

/-- The two-item list of the spec's poll-to-done scenario: one item with a
    large image, one with only a cover URL. -/
def twoItemScenario : List Item :=
  [{ large_images := some [{ image_url := some "u1" }], cover_url := none },
   { large_images := none, cover_url := some "u2" }]

/-- The index sequence, relative to the start index `k`, at which
    `build_rq_data` draws its identifiers, listed in the order `allIds`
    reports them. -/
def buildIdxList (has_file_path : Bool) (k : Nat) : List Nat :=
  if has_file_path then
    [k + 9, k + 10, k, k + 11, k + 12, k + 1, k + 2, k + 3, k + 4,
     k + 5, k + 6, k + 7, k + 8]
  else
    [k + 5, k + 6, k, k + 7, k + 8, k + 1, k + 2, k + 3, k + 4]

/-- Number of `_generate_uuid` calls one build performs. -/
def buildIdxCount (has_file_path : Bool) : Nat := if has_file_path then 13 else 9

/-! ## Helper lemmas -/

theorem strAppendAssoc (a b c : String) : a ++ b ++ c = a ++ (b ++ c) := by
  apply String.ext
  simp [String.data_append, List.append_assoc]

theorem strJoinCons (a : String) (l : List String) :
    String.join (a :: l) = a ++ String.join l := by
  apply String.ext
  simp [String.join_eq, String.data_append]

/-- Python's `'sep'.join(lines) + 'sep'` equals the concatenation of each
    line followed by the separator, for a non-empty list of lines. -/
theorem pyJoinLines (lines : List String) (h : lines ≠ []) :
    pyJoin "\n" lines ++ "\n" = String.join (lines.map (fun l => l ++ "\n")) := by
  induction lines with
  | nil => exact absurd rfl h
  | cons x xs ih =>
    cases xs with
    | nil =>
      apply String.ext
      simp [pyJoin, String.join_eq, String.data_append]
    | cons y ys =>
      rw [List.map_cons, strJoinCons, ← ih (by simp)]
      show ((x ++ "\n") ++ pyJoin "\n" (y :: ys)) ++ "\n" =
        (x ++ "\n") ++ (pyJoin "\n" (y :: ys) ++ "\n")
      rw [strAppendAssoc]

/-- `allIds` of a built `rq_data` is the oracle mapped over the draw indices. -/
theorem build_allIds_eq {α : Type} (gen : Nat → α) (k : Nat) (b : Bool)
    (m p n u : String) (w h : Nat) :
    (build_rq_data gen k b m p n u w h).1.allIds = (buildIdxList b k).map gen := by
  cases b <;> rfl

/-- The next unused index after a build. -/
theorem build_next_eq {α : Type} (gen : Nat → α) (k : Nat) (b : Bool)
    (m p n u : String) (w h : Nat) :
    (build_rq_data gen k b m p n u w h).2 = k + buildIdxCount b := by
  cases b <;> rfl

theorem buildIdxList_nodup (b : Bool) (k : Nat) : (buildIdxList b k).Nodup := by
  cases b <;> simp [buildIdxList]

theorem buildIdxList_mem_range (b : Bool) (k i : Nat) (h : i ∈ buildIdxList b k) :
    k ≤ i ∧ i < k + buildIdxCount b := by
  cases b <;>
    (simp only [buildIdxList, List.mem_cons, List.not_mem_nil, or_false,
       if_true, if_false, cond_true, cond_false, Bool.false_eq_true] at h;
     simp only [buildIdxCount, if_true, if_false, Bool.false_eq_true];
     omega)

/-! ## The claims -/

/-- Claim C1, counterexample: the upload pipeline's checksum of the byte
    sequence `"123456789"` is `0xCBF43926` — the standard CRC-32 check value —
    and the spec's claimed variant (polynomial `0x104C11D97`, reflected,
    init 0, final XOR `0xFFFFFFFF`) produces a different value there, so the
    claimed equality fails. -/
theorem crc_poly_claim_counterexample :
    image_crc32 (strBytes "123456789") = 0xCBF43926 ∧
    crc32SpecClaimed (strBytes "123456789") ≠ image_crc32 (strBytes "123456789") := by
  constructor <;> decide

/-- Claim C1, amended: for every byte sequence, the checksum computed by the
    upload pipeline equals the standard CRC-32 (reflected polynomial
    `0x104C11DB7`, effective initial register `0xFFFFFFFF`, final XOR
    `0xFFFFFFFF`) — crcmod's `initCrc=0, xorOut=0xFFFFFFFF` convention
    denotes exactly the default CRC-32, with the standard check value on
    `"123456789"`. -/
theorem crc_equals_standard_crc32 :
    (∀ data : List Nat, image_crc32 data = crc32Standard data) ∧
    image_crc32 (strBytes "123456789") = 0xCBF43926 := by
  constructor
  · intro data
    show (if (0xFFFFFFFF : Nat) &&& 0xFFFFFFFF = 0 then
            data.foldl (crc32rStep (bitrev (0x104c11db7 &&& 0xFFFFFFFF) 32))
              ((0 : Nat) &&& 0xFFFFFFFF)
          else
            (data.foldl (crc32rStep (bitrev (0x104c11db7 &&& 0xFFFFFFFF) 32))
              (((0xFFFFFFFF : Nat) &&& 0xFFFFFFFF) ^^^ ((0 : Nat) &&& 0xFFFFFFFF)))
              ^^^ ((0xFFFFFFFF : Nat) &&& 0xFFFFFFFF)) = crc32Standard data
    rw [if_neg (by decide)]
    rw [show bitrev ((0x104c11db7 : Nat) &&& 0xFFFFFFFF) 32 = 0xEDB88320 from by decide,
        show ((0xFFFFFFFF : Nat) &&& 0xFFFFFFFF) ^^^ ((0 : Nat) &&& 0xFFFFFFFF) =
          0xFFFFFFFF from by decide,
        show ((0xFFFFFFFF : Nat) &&& 0xFFFFFFFF) = 0xFFFFFFFF from by decide]
    rfl
  · decide

/-- Claim C7: signing is deterministic — with the wall clock modelled as the
    explicit `amz_date` input (the only implicit input of the Python code),
    the signer is a pure function, so two invocations on identical
    credentials, region, service, method, query parameters, body and
    timestamp yield identical header maps, `Authorization` included. -/
theorem signing_deterministic (access_key_id secret_access_key session_token
    region service request_method : String)
    (request_params : List (String × String))
    (request_body : List (String × Jval)) (amz_date : String) :
    generate_authorization_and_header access_key_id secret_access_key
      session_token region service request_method request_params request_body
      amz_date =
    generate_authorization_and_header access_key_id secret_access_key
      session_token region service request_method request_params request_body
      amz_date := rfl

/-- Claim C8: `generate` with an empty prompt fails with the validation
    error and issues no network call at all, for every transport and with or
    without a reference image. -/
theorem empty_prompt_validation_before_network (has_file_path : Bool)
    (t : Transport) :
    generate_image "" has_file_path t = (some (.error .validation), []) := rfl

/-- Claim C4: when polling ends with status done(50), `generate` returns the
    URLs extracted from `item_list` in item order (first large-image URL if
    present, else cover URL); in the spec's scenario — status 20 twice, then
    50 with one large-image item and one cover-only item — exactly the two
    URLs, in item order. -/
theorem poll_done_returns_urls_in_item_order :
    (∀ item_list : List Item,
      (generate_image "p" false (transportDone item_list)).1 =
        some (.ok (extract_image_urls item_list))) ∧
    (generate_image "p" false (transportDone twoItemScenario)).1 =
      some (.ok ["u1", "u2"]) := by
  exact ⟨fun item_list => rfl, rfl⟩

/-- Claim C10: an item whose truthy `large_images` list starts with an entry
    lacking `image_url` contributes nothing — the cover URL is not consulted —
    so the returned sequence can be strictly shorter than `item_list`. -/
theorem item_without_url_dropped :
    (∀ (cover : Option String) (rest : List LargeImage),
      extract_image_url
        { large_images := some ({ image_url := none } :: rest),
          cover_url := cover } = none) ∧
    (generate_image "p" false
        (transportStatus (some 50) none [itemNoUrl (some "c")])).1 =
      some (.ok []) ∧
    (extract_image_urls [itemNoUrl (some "c")]).length <
      [itemNoUrl (some "c")].length := by
  exact ⟨fun cover rest => rfl, rfl, by decide⟩

/-- Claim C5: a poll response with status failed(30) makes `generate` fail
    with the content-filtered error exactly when `fail_code = "2038"`, and
    with the generic generation-failed error for every other `fail_code`. -/
theorem poll_failed_discriminates_by_fail_code (fc : Option String) :
    ((generate_image "p" false (transportFailed fc)).1 =
        some (.error .contentFiltered) ↔ fc = some "2038") ∧
    ((generate_image "p" false (transportFailed fc)).1 =
        some (.error .generationFailed) ↔ fc ≠ some "2038") := by
  by_cases h : fc = some "2038" <;>
    simp [generate_image, generate_image_credit, generate_image_submit,
      pollLoop, transportFailed, okCredit, okSubmit, truthyStr, Credit.total, h]

/-- Claim C9: a poll response whose status is neither pending(20) nor
    failed(30) — the status may even lie outside the documented set, or be
    absent — ends the loop, and `generate` proceeds to URL extraction as if
    the job had completed. -/
theorem unrecognized_status_treated_as_done (s : Option Int)
    (fc : Option String) (item_list : List Item)
    (h20 : s ≠ some 20) (h30 : s ≠ some 30) :
    (generate_image "p" false (transportStatus s fc item_list)).1 =
      some (.ok (extract_image_urls item_list)) := by
  simp [generate_image, generate_image_credit, generate_image_submit,
    pollLoop, transportStatus, okCredit, okSubmit, truthyStr, Credit.total,
    h20, h30]

/-- Witness for C9 at the undocumented status 40. -/
theorem unrecognized_status_treated_as_done_witness :
    (some 40 : Option Int) ≠ some 20 ∧ (some 40 : Option Int) ≠ some 30 ∧
    (generate_image "p" false (transportStatus (some 40) none [])).1 =
      some (.ok []) :=
  ⟨by decide, by decide,
   unrecognized_status_treated_as_done (some 40) none [] (by decide) (by decide)⟩

/-- Claim C2, counterexample: with zero total credit and a grant-claim call
    that raises, `generate` aborts with that transport error and never issues
    the submission call — the claim failure does abort generation. -/
theorem receive_credit_failure_aborts_counterexample :
    (generate_image "p" false transportReceiveFails).1 =
      some (.error (.transport "网络错误")) ∧
    NetCall.submit ∉ (generate_image "p" false transportReceiveFails).2 := by
  refine ⟨rfl, ?_⟩
  show NetCall.submit ∉ [NetCall.getCredit, NetCall.receiveCredit]
  decide

/-- Claim C2, amended: when total credit is ≤ 0 the grant claim is
    attempted; its response payload is discarded, so an application-level
    failure reported in the body never aborts generation (the run continues
    to submission identically for every payload), but an exception raised by
    the claim call propagates and aborts `generate` before submission. -/
theorem receive_credit_best_effort_amended (resp : CreditReceiveResp)
    (m : String) (sub : Except String SubmitResp)
    (polls : List (Except String (Option Record))) :
    (generate_image "p" false (transportZeroCredit (.ok resp) sub polls) =
      generate_image_submit (transportZeroCredit (.ok resp) sub polls)
        [.getCredit, .receiveCredit]) ∧
    ((generate_image "p" false (transportZeroCredit (.error m) sub polls)).1 =
      some (.error (.transport m))) ∧
    NetCall.submit ∉
      (generate_image "p" false (transportZeroCredit (.error m) sub polls)).2 := by
  refine ⟨rfl, rfl, ?_⟩
  show NetCall.submit ∉ [NetCall.getCredit, NetCall.receiveCredit]
  decide

/-- Claim C3, counterexample: with the query parameters inserted out of key
    order, the canonical request the signer builds (insertion order, src 268)
    differs from the spec's key-sorted form. -/
theorem canonical_query_order_counterexample :
    canonical_string "GET" [("b", "1"), ("a", "2")] [("X-Amz-Date", "D")] [] ≠
    canonical_string_spec_claimed "GET" [("b", "1"), ("a", "2")]
      [("X-Amz-Date", "D")] [] := by
  decide

/-- Claim C3, amended: for every method, query-parameter map, non-empty
    header map and body, the canonical request equals the spec's form with
    the query string URL-encoded in the parameter map's insertion order
    (not key-sorted); all other components are as the spec describes them. -/
theorem canonical_string_insertion_order (request_method : String)
    (request_params : List (String × String))
    (request_headers : List (String × String))
    (request_body : List (String × Jval))
    (hne : request_headers ≠ []) :
    canonical_string request_method request_params request_headers
      request_body =
    canonical_string_spec_insertion request_method request_params
      request_headers request_body := by
  have hlines :
      (sortStrings (request_headers.map (fun p => p.1))).map
        (fun key => strLower key ++ ":" ++ lookupD request_headers key) ≠ [] := by
    intro hempty
    apply hne
    have hsort : sortStrings (request_headers.map (fun p => p.1)) = [] :=
      List.map_eq_nil_iff.mp hempty
    have hlen : (sortStrings (request_headers.map (fun p => p.1))).length =
        (request_headers.map (fun p => p.1)).length := by
      unfold sortStrings
      induction request_headers.map (fun p => p.1) with
      | nil => rfl
      | cons a l ihl =>
        simp only [List.foldr_cons, List.length_cons, ← ihl]
        generalize List.foldr insertSortedStr [] l = acc
        induction acc with
        | nil => rfl
        | cons b bs ihb =>
          unfold insertSortedStr
          by_cases hb : strLe a b = true
          · simp [hb]
          · simp only [hb, if_false, Bool.false_eq_true, List.length_cons, ihb]
    rw [hsort] at hlen
    cases hrh : request_headers with
    | nil => rfl
    | cons q qs => rw [hrh] at hlen; simp at hlen
  unfold canonical_string canonical_string_spec_insertion
  rw [show ∀ a b c d e f : String,
        pyJoin "\n" [a, b, c, d, e, f] =
          a ++ "\n" ++ (b ++ "\n" ++ (c ++ "\n" ++ (d ++ "\n" ++ (e ++ "\n" ++ f))))
      from fun a b c d e f => rfl]
  have hmap :
      (sortStrings (request_headers.map (fun p => p.1))).map
          (fun key => strLower key ++ ":" ++ lookupD request_headers key ++ "\n") =
      ((sortStrings (request_headers.map (fun p => p.1))).map
          (fun key => strLower key ++ ":" ++ lookupD request_headers key)).map
        (fun l => l ++ "\n") := by
    rw [List.map_map]; rfl
  rw [hmap, ← pyJoinLines _ hlines]
  simp [strAppendAssoc]
  rw [show ("\n/\n" : String) = "\n" ++ "/\n" from rfl, strAppendAssoc]

/-- Witness for the amended C3 at a concrete non-empty header map. -/
theorem canonical_string_insertion_order_witness :
    ([("X-Amz-Date", "D")] : List (String × String)) ≠ [] ∧
    canonical_string "GET" [("b", "1"), ("a", "2")] [("X-Amz-Date", "D")] [] =
      canonical_string_spec_insertion "GET" [("b", "1"), ("a", "2")]
        [("X-Amz-Date", "D")] [] :=
  ⟨by decide,
   canonical_string_insertion_order "GET" [("b", "1"), ("a", "2")]
     [("X-Amz-Date", "D")] [] (by decide)⟩

/-- Claim C6: with the process-wide `uuid.uuid4()` stream modelled as an
    injective oracle consumed at successive indices, every identifier
    generated for the nodes of one `rq_data` build is unique within that
    build, and a second build for a later call (continuing the stream at the
    next unused index) never reuses an identifier from the first. -/
theorem draft_identifiers_unique {α : Type} (gen : Nat → α)
    (hinj : Function.Injective gen) (k : Nat) (b1 b2 : Bool)
    (m1 p1 n1 u1 m2 p2 n2 u2 : String) (w1 h1 w2 h2 : Nat) :
    (build_rq_data gen k b1 m1 p1 n1 u1 w1 h1).1.allIds.Nodup ∧
    (build_rq_data gen (build_rq_data gen k b1 m1 p1 n1 u1 w1 h1).2 b2
      m2 p2 n2 u2 w2 h2).1.allIds.Nodup ∧
    (build_rq_data gen k b1 m1 p1 n1 u1 w1 h1).1.allIds.Disjoint
      (build_rq_data gen (build_rq_data gen k b1 m1 p1 n1 u1 w1 h1).2 b2
        m2 p2 n2 u2 w2 h2).1.allIds := by
  rw [build_allIds_eq, build_allIds_eq, build_next_eq]
  refine ⟨(buildIdxList_nodup b1 k).map hinj,
    (buildIdxList_nodup b2 (k + buildIdxCount b1)).map hinj, ?_⟩
  intro a ha1 ha2
  rw [List.mem_map] at ha1 ha2
  obtain ⟨i, hi, rfl⟩ := ha1
  obtain ⟨j, hj, hji⟩ := ha2
  have hij : j = i := hinj hji
  subst hij
  have r1 := buildIdxList_mem_range b1 k j hi
  have r2 := buildIdxList_mem_range b2 (k + buildIdxCount b1) j hj
  omega

/-- Witness for C6: the identity oracle on `Nat` is injective, and the two
    builds (one plain, one blend) have pairwise-distinct, mutually disjoint
    identifier lists. -/
theorem draft_identifiers_unique_witness :
    Function.Injective (fun n : Nat => n) ∧
    ((build_rq_data (fun n : Nat => n) 0 false "m" "p" "np" "u" 1024 1024).1.allIds.Nodup ∧
     (build_rq_data (fun n : Nat => n)
       (build_rq_data (fun n : Nat => n) 0 false "m" "p" "np" "u" 1024 1024).2 true
       "m2" "p2" "np2" "u2" 1360 1360).1.allIds.Nodup ∧
     (build_rq_data (fun n : Nat => n) 0 false "m" "p" "np" "u" 1024 1024).1.allIds.Disjoint
       (build_rq_data (fun n : Nat => n)
         (build_rq_data (fun n : Nat => n) 0 false "m" "p" "np" "u" 1024 1024).2 true
         "m2" "p2" "np2" "u2" 1360 1360).1.allIds) :=
  ⟨fun _ _ h => h,
   draft_identifiers_unique (fun n : Nat => n) (fun _ _ h => h) 0 false true
     "m" "p" "np" "u" "m2" "p2" "np2" "u2" 1024 1024 1360 1360⟩

end Jimeng

namespace Jimeng

/-- Sanity check of the SHA-256 embedding against the FIPS 180-4 test vector
    for the empty message. -/
theorem sha256_empty_vector :
    sha256Hex (strBytes "") =
      "e3b0c44298fc1c149afbf4c8996fb92427ae41e4649b934ca495991b7852b855" := by
  decide

/-- Sanity check of the SHA-256 embedding against the FIPS 180-4 test vector
    for `"abc"`. -/
theorem sha256_abc_vector :
    sha256Hex (strBytes "abc") =
      "ba7816bf8f01cfea414140de5dae2223b00361a396177a9cb410ff61f20015ad" := by
  decide

/-- Sanity check of the `json.dumps` embedding: Python's default separators
    render an object with `": "` between key and value. -/
theorem dumps_scene_body :
    Jval.dumps (.obj [("scene", .num 2)]) = "\x7b\"scene\": 2\x7d" := by
  decide

end Jimeng
